import Mathlib

/-!
Verification development for the Audico call-system orchestrator.

Shallow embedding of the per-call session state machine, escalation policy,
dialogue engine (tool-augmented LLM loop) and speech-synthesis fallback of
the repository.  Network collaborators (OpenAI/Anthropic providers,
ElevenLabs synthesis, Supabase/MySQL lookups) are modelled as oracle
parameters: each turn function receives the outcome every external call
would produce, so the embedded control flow is exactly the source's.

Sources embedded:
  * `src/src/services/ivr.js` — `IVRService`: `initializeCall`,
    `detectsHumanRequest`, `shouldEscalate`.
  * `src/unnamed/part_006` — the multi-agent server: `getAgentResponse`,
    `generateSpeech`, `createTwiML`, and the `/voice/conversation` handler.
  * `src/unnamed/part_008` — `LLMService.generateResponseWithTools`.
-/

namespace Audico

/-- Case-insensitive character list of a string (models JS `toLowerCase()` /
the `i` regex flag for the ASCII texts involved). -/
def lowerList (s : String) : List Char :=
  s.toList.map Char.toLower

/-- `seqContains pat l` models JS `l.includes(pat)` / an unanchored regex
test: `pat` occurs as a contiguous subsequence of `l`. -/
def seqContains (pat : List Char) : List Char → Bool
  | [] => pat.isPrefixOf ([] : List Char)
  | c :: t => pat.isPrefixOf (c :: t) || seqContains pat t

/-- JS `hay.toLowerCase().includes(pat)` for a lowercase pattern `pat`. -/
def containsLower (hay : String) (pat : String) : Bool :=
  seqContains pat.toList (lowerList hay)

/-! ## Escalation policy (`src/src/services/ivr.js`) -/

/-- Caller information handed to `initializeCall` (from the Twilio webhook
body). -/
structure CallerInfo where
  fromNumber : String
  fromCity : String
  fromState : String
  fromCountry : String
  deriving DecidableEq

/-- The per-call state object kept in `IVRService.callState`.  Fields the
constructor does not set (`sentiment`, `urgency`, `requestedHuman`,
`failedAttempts`, `escalationReason`) exist on the JS object only after an
`updateCallState`; they are modelled as `Option`/`Bool` with the JS
`undefined` read mapping to `none`/`false`. -/
structure IvrState where
  callSid : String
  callerNumber : String
  callerCity : String
  callerState : String
  callerCountry : String
  startTime : Nat
  currentState : String
  selectedDepartment : Option String
  intent : Option String
  transferAttempts : Nat
  conversationTurns : Nat
  sentiment : Option String
  urgency : Option String
  requestedHuman : Bool
  failedAttempts : Option Nat
  escalationReason : Option String
  deriving DecidableEq

/-- The session object `IVRService.initializeCall` stores (ivr.js:19-35).
`new Date()` is supplied as the `now` argument. -/
def freshIvrState (callSid : String) (info : CallerInfo) (now : Nat) : IvrState where
  callSid := callSid
  callerNumber := info.fromNumber
  callerCity := info.fromCity
  callerState := info.fromState
  callerCountry := info.fromCountry
  startTime := now
  currentState := "greeting"
  selectedDepartment := none
  intent := none
  transferAttempts := 0
  conversationTurns := 0
  sentiment := none
  urgency := none
  requestedHuman := false
  failedAttempts := none
  escalationReason := none

/-- The `IVRService.callState` JS `Map`, keyed by call SID. -/
def SessionMap : Type := String → Option IvrState

/-- JS `Map.prototype.set`: unconditional insert-or-replace. -/
def mapSet (m : SessionMap) (k : String) (v : IvrState) : SessionMap :=
  fun k' => if k' = k then some v else m k'

/-- The empty session map. -/
def emptyMap : SessionMap := fun _ => none

/-- `IVRService.initializeCall(callSid, callerInfo)` (ivr.js:19-35): stores a
fresh state under `callSid` via `Map.set`, replacing any existing entry. -/
def initializeCall (m : SessionMap) (callSid : String) (info : CallerInfo)
    (now : Nat) : SessionMap :=
  mapSet m callSid (freshIvrState callSid info now)

/-- The human-request lexicon of `detectsHumanRequest` (ivr.js:316-336),
verbatim and in source order. -/
def humanKeywords : List String :=
  [ "human",
    "person",
    "real person",
    "agent",
    "operator",
    "representative",
    "manager",
    "supervisor",
    "speak to someone",
    "talk to someone",
    "transfer me",
    "transfer to",
    "transfer",
    "connect me",
    "live agent",
    "real agent",
    "customer service",
    "speak with",
    "talk with" ]

/-- `IVRService.detectsHumanRequest(input)` (ivr.js:312-339): false on empty
input (JS falsy guard), otherwise true iff some lexicon keyword occurs in the
lowercased input. -/
def detectsHumanRequest (input : String) : Bool :=
  if input = "" then false
  else humanKeywords.any (fun kw => containsLower input kw)

/-- `IVRService.shouldEscalate(callSid, lastInput)` (ivr.js:253-305) as a pure
function of the fetched state.  The one external collaborator,
`llmService.shouldTransferToHuman`, is the oracle argument `llmRec`.  Returns
the decision together with the state as mutated by the `updateCallState`
calls that set `escalationReason`. -/
def shouldEscalate (llmRec : Bool) (st : IvrState) (lastInput : String) :
    Bool × IvrState :=
  if detectsHumanRequest lastInput then
    (true, { st with escalationReason := some "customer_requested_human" })
  else if st.requestedHuman then
    (true, st)
  else if st.conversationTurns > 10 then
    (true, { st with escalationReason := some "long_conversation" })
  else if st.sentiment = some "negative" ∧ st.conversationTurns > 3 then
    (true, { st with escalationReason := some "negative_sentiment" })
  else if st.urgency = some "critical" ∨ st.urgency = some "high" then
    (true, { st with escalationReason := some "high_urgency" })
  else if (match st.failedAttempts with | some n => decide (3 ≤ n) | none => false) then
    (true, { st with escalationReason := some "repeated_failures" })
  else if llmRec then
    (true, { st with escalationReason := some "ai_recommended" })
  else
    (false, st)

/-! ## Multi-agent server (`src/unnamed/part_006`) -/

/-- The agent personas of the multi-agent server (keys of `AGENT_VOICES` and
values of `state.agent`). -/
inductive Agent
  | receptionist
  | sales
  | shipping
  | support
  | accounts
  deriving DecidableEq

/-- The lowercase department name as it appears in `state.agent`, the routing
regex and the specialist greeting. -/
def Agent.name : Agent → String
  | .receptionist => "receptionist"
  | .sales => "sales"
  | .shipping => "shipping"
  | .support => "support"
  | .accounts => "accounts"

/-- The `AGENT_VOICES` table (part_006:49-55), with the source's default
ElevenLabs voice ids (the env-var overrides are deployment configuration). -/
def agentVoice : Agent → String
  | .receptionist => "tFbs0XxZ7TP2yWyrfBty"
  | .sales => "fPVZbr0RJBH9KL47pnxU"
  | .shipping => "YPtbPhafrxFTDAeaPP4w"
  | .support => "fPVZbr0RJBH9KL47pnxU"
  | .accounts => "xeBpkkuzgxa0IwKt7NTP"

/-- One OpenAI tool call requested by the model; `args` is the raw
`function.arguments` JSON string, kept opaque. -/
structure ToolCall where
  id : String
  name : String
  args : String
  deriving DecidableEq

/-- An entry of `state.history` as the code pushes them: user text, assistant
text, the assistant message carrying `tool_calls`, or a `role: 'tool'`
result. -/
inductive ChatMsg
  | user (content : String)
  | assistantText (content : String)
  | assistantToolCalls (calls : List ToolCall)
  | toolResult (id : String) (name : String) (content : String)
  deriving DecidableEq

/-- A transcript record (`{timestamp, speaker, text}`); the wall-clock
timestamp payload is irrelevant to every property and omitted. -/
structure TranscriptEntry where
  speaker : String
  text : String
  deriving DecidableEq

/-- The per-call state object stored in `callStates`
(part_006 `/voice/incoming`). -/
structure CallState where
  agent : Agent
  history : List ChatMsg
  transcript : List TranscriptEntry
  fromNumber : String
  startTime : Nat
  deriving DecidableEq

/-- `response.choices[0].message` of an OpenAI chat completion: text content
(possibly `null`) and the requested tool calls (possibly absent, i.e. `[]`). -/
structure OAMsg where
  content : Option String
  toolCalls : List ToolCall
  deriving DecidableEq

/-- Outcomes of the external calls one `getAgentResponse` turn can make; an
`Except.error` models the awaited promise rejecting (provider error/timeout,
DB error, malformed JSON arguments). -/
structure ProviderOracle where
  firstCall : Except Unit OAMsg
  toolExec : ToolCall → Except Unit String
  secondCall : Except Unit OAMsg

/-- The fixed apology of the `getAgentResponse` catch block (part_006:736). -/
def apology006 : String := "Sorry, I did not catch that. Could you please repeat?"

/-- `history.length > 10 ? history.slice(-10) : history` (part_006:725-729). -/
def pruneHistory (h : List ChatMsg) : List ChatMsg :=
  if h.length > 10 then h.drop (h.length - 10) else h

/-- The tool-execution loop (part_006:644-701).  Per requested call:
dispatch to the adapter, then push the `role:'tool'` result message.  A
rejection mid-loop aborts with the messages pushed so far (the `Except.error`
payload), landing in the outer catch. -/
def execTools (ex : ToolCall → Except Unit String) :
    List ToolCall → Except (List ChatMsg) (List ChatMsg)
  | [] => .ok []
  | tc :: rest =>
    match ex tc with
    | .error _ => .error []
    | .ok r =>
      match execTools ex rest with
      | .ok ms => .ok (ChatMsg.toolResult tc.id tc.name r :: ms)
      | .error ms => .error (ChatMsg.toolResult tc.id tc.name r :: ms)

/-- Result of one `getAgentResponse` turn: the stored state, the returned
reply text, and whether the catch block fired (observable in the source as
the `console.error` + early apology return). -/
structure AgentTurn where
  state : CallState
  reply : String
  errored : Bool
  deriving DecidableEq

/-- `getAgentResponse(userMessage, callSid, agentType)` (part_006:501-738).
The caller utterance is pushed onto `history` before the `try`, so it
survives into the stored state even when the provider call rejects; pruning
to the last 10 entries happens only on the success path.  A `null` final
`content` makes `aiMessage.substring` throw into the catch (this is how a
second tool-call-only response degrades to the apology, since the second
call is made with `tool_choice: 'none'`). -/
def getAgentResponse (o : ProviderOracle) (st : CallState) (userMessage : String) :
    AgentTurn :=
  let h0 := st.history ++ [ChatMsg.user userMessage]
  match o.firstCall with
  | .error _ => ⟨{ st with history := h0 }, apology006, true⟩
  | .ok msg =>
    if msg.toolCalls.isEmpty then
      match msg.content with
      | none => ⟨{ st with history := h0 }, apology006, true⟩
      | some s =>
        ⟨{ st with history := pruneHistory (h0 ++ [ChatMsg.assistantText s]) }, s, false⟩
    else
      let h1 := h0 ++ [ChatMsg.assistantToolCalls msg.toolCalls]
      match execTools o.toolExec msg.toolCalls with
      | .error ms => ⟨{ st with history := h1 ++ ms }, apology006, true⟩
      | .ok results =>
        let h2 := h1 ++ results
        match o.secondCall with
        | .error _ => ⟨{ st with history := h2 }, apology006, true⟩
        | .ok msg2 =>
          match msg2.content with
          | none => ⟨{ st with history := h2 }, apology006, true⟩
          | some s =>
            ⟨{ st with history := pruneHistory (h2 ++ [ChatMsg.assistantText s]) }, s, false⟩

/-! ### Speech synthesis and TwiML (`generateSpeech`, `createTwiML`) -/

/-- Opaque ElevenLabs audio payload. -/
def AudioBytes : Type := List Nat

/-- `generateSpeech(text, filename, voiceId)` (part_006:297-328): on a
successful provider response the audio is written to disk and the filename
returned; any rejection is caught and `null` returned. -/
def generateSpeech (synth : Except Unit AudioBytes) (filename : String) :
    Option String :=
  match synth with
  | .ok _ => some filename
  | .error _ => none

/-- What a TwiML response speaks: a `<Play>` of generated audio, or the
`<Say voice="Polly.Ayanda">` baseline-voice fallback. -/
inductive SpokenOut
  | playFile (filename : String)
  | sayVoice (voice : String) (text : String)
  deriving DecidableEq

/-- `audioFile ? <Play> : <Say voice="Polly.Ayanda">` (part_006:747-756). -/
def spokenFor (audio : Option String) (message : String) : SpokenOut :=
  match audio with
  | some f => SpokenOut.playFile f
  | none => SpokenOut.sayVoice "Polly.Ayanda" message

/-- `createTwiML(message, audioFile, nextUrl, req)` (part_006:745-762),
structurally: what is spoken, then a `<Gather>` posting to `nextUrl`. -/
structure Twiml where
  spoken : SpokenOut
  gatherAction : String
  deriving DecidableEq

/-- Structural `createTwiML`. -/
def createTwiML (message : String) (audio : Option String) (nextUrl : String) :
    Twiml :=
  ⟨spokenFor audio message, nextUrl⟩

/-! ### The `/voice/conversation` handler (part_006:851-940) -/

/-- The departments of the routing regex alternation
`(sales|shipping|support|accounts)`, in source order. -/
def deptAlternatives : List Agent := [.sales, .shipping, .support, .accounts]

/-- The hand-off marker for one department,
`connect you to our <dept> team`, lowercased. -/
def routePattern (d : Agent) : List Char :=
  ("connect you to our " ++ d.name ++ " team").toList

/-- Try the four regex alternatives at the current position, left to
right (regex alternation order). -/
def matchRouteAt (l : List Char) : Option Agent :=
  if (routePattern .sales).isPrefixOf l then some .sales
  else if (routePattern .shipping).isPrefixOf l then some .shipping
  else if (routePattern .support).isPrefixOf l then some .support
  else if (routePattern .accounts).isPrefixOf l then some .accounts
  else none

/-- Scan for the earliest match position (regex search semantics). -/
def scanRoute : List Char → Option Agent
  | [] => matchRouteAt []
  | c :: t =>
    match matchRouteAt (c :: t) with
    | some d => some d
    | none => scanRoute t

/-- `aiResponse.match(/connect you to our (sales|shipping|support|accounts) team/i)`
(part_006:884), returning the captured department. -/
def routingDept (reply : String) : Option Agent :=
  scanRoute (lowerList reply)

/-- `/goodbye|bye|thank you|thanks/i.test(speechResult)` (part_006:921). -/
def goodbyeMatch (speech : String) : Bool :=
  ["goodbye", "bye", "thank you", "thanks"].any fun p => containsLower speech p

/-- The TwiML answers the conversation handler can produce: a normal
gather-again turn, the department hand-off response (reply audio, then the
specialist greeting, then a gather), or the goodbye response (optional audio,
then `<Hangup/>`). -/
inductive VoiceResponse
  | gatherTurn (t : Twiml)
  | handoff (replyAudio : Option String) (greeting : String)
      (greetingAudio : Option String) (dept : Agent)
  | hangupAfter (audio : Option String)
  deriving DecidableEq

/-- Oracle for every external call one `/voice/conversation` request can
make: the LLM provider interactions and the ElevenLabs synthesis outcome per
(text, voiceId) pair. -/
structure TurnOracle where
  provider : ProviderOracle
  synth : String → String → Except Unit AudioBytes

/-- Outcome of one `/voice/conversation` request: the session state as
left in (or, when `deleted`, removed from) `callStates`, whether
`callStates.delete` ran, the response TwiML, and whether the dialogue
engine's catch fired. -/
structure TurnOutcome where
  state : CallState
  deleted : Bool
  response : VoiceResponse
  errored : Bool
  deriving DecidableEq

/-- The `/voice/conversation` handler (part_006:851-940).  Order as in the
source: empty-speech guard; push the caller utterance onto `transcript`;
run `getAgentResponse`; push the reply onto `transcript`; the routing branch
(marker in the reply AND current agent is the receptionist) switches
department and clears `history`; otherwise the goodbye branch hangs up and
deletes the session; otherwise gather again. -/
def processTurn (o : TurnOracle) (callSid : String) (st : CallState)
    (speech : String) : TurnOutcome :=
  if speech = "" then
    ⟨st, false,
      .gatherTurn (createTwiML "Sorry, I did not hear that. Could you please repeat?"
        none "/voice/conversation"), false⟩
  else
    let st1 := { st with transcript := st.transcript ++ [⟨"Customer", speech⟩] }
    let turn := getAgentResponse o.provider st1 speech
    let reply := turn.reply
    let st2 := { turn.state with
      transcript := turn.state.transcript ++ [⟨"AI-" ++ st.agent.name, reply⟩] }
    let route : Option Agent :=
      match routingDept reply with
      | some d => if st.agent = .receptionist then some d else none
      | none => none
    match route with
    | some d =>
      let st3 := { st2 with agent := d, history := [] }
      let replyAudio := generateSpeech (o.synth reply (agentVoice .receptionist))
        (callSid ++ "-routing.mp3")
      let greeting := "Hello, this is " ++ d.name ++ ". How can I help you today?"
      let greetingAudio := generateSpeech (o.synth greeting (agentVoice d))
        (callSid ++ "-" ++ d.name ++ "-greeting.mp3")
      ⟨st3, false, .handoff replyAudio greeting greetingAudio d, turn.errored⟩
    | none =>
      if goodbyeMatch speech then
        let audio := generateSpeech (o.synth reply (agentVoice st.agent))
          (callSid ++ "-goodbye.mp3")
        ⟨st2, true, .hangupAfter audio, turn.errored⟩
      else
        let audio := generateSpeech (o.synth reply (agentVoice st.agent))
          (callSid ++ "-turn.mp3")
        ⟨st2, false, .gatherTurn (createTwiML reply audio "/voice/conversation"),
          turn.errored⟩

/-! ## `LLMService.generateResponseWithTools` (`src/unnamed/part_008`) -/

/-- One content block of an Anthropic message: text, or a `tool_use`
request. -/
inductive CBlock
  | text (s : String)
  | toolUse (id : String) (name : String) (input : String)
  deriving DecidableEq

/-- A provider response: `stop_reason` and the content blocks. -/
structure AnthResponse where
  stopReason : String
  content : List CBlock
  deriving DecidableEq

/-- An entry of `this.conversationHistory` as `generateResponseWithTools`
pushes them: the user utterance, the assistant message with its raw blocks,
the `tool_result` user message, and the final assistant text (which in the
no-tool path can be JS `undefined`, hence `Option`). -/
inductive AMsg
  | user (s : String)
  | assistantBlocks (content : List CBlock)
  | userToolResults (results : List (String × String))
  | assistantText (s : Option String)
  deriving DecidableEq

/-- Oracle for one `generateResponseWithTools` turn: the outcome of each of
the at most two `anthropic.messages.create` calls (`Except.error` = the
promise rejects), and the tool adapters.  `executeTool` (part_008:460-520)
has its own catch-all returning an error string, so it is total. -/
structure AnthOracle where
  call1 : Except Unit AnthResponse
  call2 : Except Unit AnthResponse
  execTool : String → String → String

/-- A `tool_use` block's payload. -/
structure TUse where
  id : String
  name : String
  input : String
  deriving DecidableEq

/-- The `tool_use` blocks of a response's content, in order. -/
def toolUsesOf (content : List CBlock) : List TUse :=
  content.filterMap fun b =>
    match b with
    | .toolUse id name input => some ⟨id, name, input⟩
    | _ => none

/-- `finalResponse.content.find(c => c.type === 'text')` (part_008:606). -/
def findTextBlock (content : List CBlock) : Option String :=
  content.findSome? fun b =>
    match b with
    | .text s => some s
    | _ => none

/-- The `|| 'I apologize, ...'` fallback of part_008:606. -/
def llmApology : String := "I apologize, I could not process that information."

/-- Result of one `generateResponseWithTools` turn.  `outcome` is
`.error ()` when the function throws (a provider rejection rethrown as
`LLM response generation failed`, or the `response.content[0]` access on an
empty content list); `.ok r` is the returned reply, `none` standing for a JS
`undefined` return.  `providerCalls` counts `anthropic.messages.create`
invocations; `dispatched` lists the `(name, input)` pairs actually passed to
`executeTool`; `hist` is the conversation history as stored (pushes survive a
throw, the array being mutated in place). -/
structure ToolsResult where
  outcome : Except Unit (Option String)
  providerCalls : Nat
  dispatched : List (String × String)
  hist : List AMsg

/-- `LLMService.generateResponseWithTools(userMessage, callSid, context)`
(part_008:536-631).  The first provider call is made with the department
tools; if `stop_reason === 'tool_use'`, every `tool_use` block is dispatched,
the tool results are pushed, and the provider is called exactly once more;
the final reply is the first text block of that second response, defaulting
to the apology when the second response carries no (non-empty) text —
notably when it requests tools again, which are neither dispatched nor
answered.  There is no loop. -/
def generateResponseWithTools (o : AnthOracle) (hist : List AMsg)
    (userMessage : String) : ToolsResult :=
  let h0 := hist ++ [AMsg.user userMessage]
  match o.call1 with
  | .error _ => ⟨.error (), 1, [], h0⟩
  | .ok r0 =>
    if r0.stopReason = "tool_use" then
      let uses := toolUsesOf r0.content
      let results := uses.map fun u => (u.id, o.execTool u.name u.input)
      let dispatched := uses.map fun u => (u.name, u.input)
      let h1 := h0 ++ [AMsg.assistantBlocks r0.content, AMsg.userToolResults results]
      match o.call2 with
      | .error _ => ⟨.error (), 2, dispatched, h1⟩
      | .ok r1 =>
        let reply :=
          match findTextBlock r1.content with
          | some s => if s = "" then llmApology else s
          | none => llmApology
        ⟨.ok (some reply), 2, dispatched, h1 ++ [AMsg.assistantText (some reply)]⟩
    else
      match r0.content.head? with
      | none => ⟨.error (), 1, [], h0⟩
      | some (.text s) => ⟨.ok (some s), 1, [], h0 ++ [AMsg.assistantText (some s)]⟩
      | some (.toolUse _ _ _) => ⟨.ok none, 1, [], h0 ++ [AMsg.assistantText none]⟩

/-! ## Concrete fixtures used by counterexamples and witnesses -/

/-- A concrete caller. -/
def infoA : CallerInfo := ⟨"+27111234567", "Johannesburg", "GP", "ZA"⟩

/-- A second, distinct concrete caller. -/
def infoB : CallerInfo := ⟨"+27820000000", "Cape Town", "WC", "ZA"⟩

/-- A session four turns in whose intent analysis recorded negative
sentiment (ivr.js `analyzeIntent` stores `sentiment` on the state). -/
def negativeSentimentState : IvrState :=
  { freshIvrState "CA1" infoA 0 with
      conversationTurns := 4
      sentiment := some "negative" }

/-- The session state `/voice/incoming` creates (part_006:826-832). -/
def initialCallState : CallState :=
  ⟨Agent.receptionist, [], [], "+27111234567", 0⟩

/-- A stub Anthropic provider that requests a tool round on every call —
the "protocol violation" scenario. -/
def protoOracle : AnthOracle where
  call1 := .ok ⟨"tool_use", [CBlock.toolUse "t1" "search_products" "jbl"]⟩
  call2 := .ok ⟨"tool_use", [CBlock.toolUse "t2" "search_products" "jbl again"]⟩
  execTool := fun _ _ => "No products found"

/-- An OpenAI provider stub whose every call rejects (provider error or
timeout). -/
def errProviderOracle : ProviderOracle where
  firstCall := .error ()
  toolExec := fun _ => .error ()
  secondCall := .error ()

/-- An OpenAI provider stub that answers the first call with plain text and
no tool calls. -/
def textProviderOracle (reply : String) : ProviderOracle where
  firstCall := .ok ⟨some reply, []⟩
  toolExec := fun _ => .error ()
  secondCall := .error ()

/-- An OpenAI provider stub that requests one tool call on the first
response and again returns `null` content (a tool request) on the second. -/
def toolAgainProviderOracle : ProviderOracle where
  firstCall := .ok ⟨none, [⟨"t1", "track_order", "28630"⟩]⟩
  toolExec := fun _ => .ok "order found"
  secondCall := .ok ⟨none, [⟨"t2", "track_order", "28630"⟩]⟩

/-- A turn oracle whose external calls all fail. -/
def errTurnOracle : TurnOracle where
  provider := errProviderOracle
  synth := fun _ _ => .error ()

/-- A turn oracle whose receptionist reply is the sales hand-off marker and
whose synthesis calls fail. -/
def routeTurnOracle : TurnOracle where
  provider := textProviderOracle "Let me connect you to our sales team."
  synth := fun _ _ => .error ()

/-- A turn oracle whose reply is plain text and whose synthesis succeeds. -/
def plainTurnOracle : TurnOracle where
  provider := textProviderOracle "Happy to help with anything else."
  synth := fun _ _ => .ok [0]

/-- `n` consecutive `/voice/conversation` turns with utterance "hello"
against the always-failing oracle. -/
def iterConvTurn : Nat → CallState → CallState
  | 0, s => s
  | n + 1, s => iterConvTurn n (processTurn errTurnOracle "CA123" s "hello").state

/-! ## Helper lemmas -/

/-- Pruning always leaves at most the 10-entry window. -/
theorem pruneHistory_length_le (h : List ChatMsg) : (pruneHistory h).length ≤ 10 := by
  unfold pruneHistory
  split
  · simp only [List.length_drop]
    omega
  · omega

/-- `getAgentResponse` never changes the active agent. -/
theorem getAgentResponse_agent (o : ProviderOracle) (st : CallState) (msg : String) :
    (getAgentResponse o st msg).state.agent = st.agent := by
  unfold getAgentResponse
  repeat' split
  all_goals rfl

/-- `getAgentResponse` never touches the transcript. -/
theorem getAgentResponse_transcript (o : ProviderOracle) (st : CallState) (msg : String) :
    (getAgentResponse o st msg).state.transcript = st.transcript := by
  unfold getAgentResponse
  repeat' split
  all_goals rfl

/-- A position match returns one of the four departments of the regex
alternation. -/
theorem matchRouteAt_mem (l : List Char) (d : Agent) (h : matchRouteAt l = some d) :
    d ∈ deptAlternatives := by
  unfold matchRouteAt at h
  split_ifs at h <;> simp_all [deptAlternatives]

/-- A routing match returns one of the four departments. -/
theorem scanRoute_mem (l : List Char) (d : Agent) (h : scanRoute l = some d) :
    d ∈ deptAlternatives := by
  induction l with
  | nil =>
      simp only [scanRoute] at h
      exact matchRouteAt_mem _ _ h
  | cons c t ih =>
      simp only [scanRoute] at h
      rcases hm : matchRouteAt (c :: t) with _ | d'
      · rw [hm] at h
        exact ih h
      · rw [hm] at h
        cases h
        exact matchRouteAt_mem _ _ hm

/-- A routing match in a reply returns one of the four departments. -/
theorem routingDept_mem (r : String) (d : Agent) (h : routingDept r = some d) :
    d ∈ deptAlternatives :=
  scanRoute_mem _ _ h

/-- C3: whenever the caller utterance matches the human-request lexicon of
`detectsHumanRequest`, `shouldEscalate` returns true for every session state
— irrespective of `conversationTurns`, `failedAttempts` and the LLM
recommendation — and the recorded escalation reason is
`customer_requested_human`, showing the lexicon rule fires before any other
rule. -/
theorem human_request_always_escalates (llmRec : Bool) (st : IvrState)
    (input : String) (h : detectsHumanRequest input = true) :
    (shouldEscalate llmRec st input).1 = true ∧
    (shouldEscalate llmRec st input).2.escalationReason =
      some "customer_requested_human" := by
  simp [shouldEscalate, h]

/-- Witness for C3: the concrete utterance "please transfer me" matches the
lexicon and escalates a fresh session with zero counters. -/
theorem human_request_always_escalates_witness :
    detectsHumanRequest "please transfer me" = true ∧
    ((shouldEscalate false (freshIvrState "CA1" infoA 0)
        "please transfer me").1 = true ∧
     (shouldEscalate false (freshIvrState "CA1" infoA 0)
        "please transfer me").2.escalationReason = some "customer_requested_human") :=
  ⟨by decide,
   human_request_always_escalates false (freshIvrState "CA1" infoA 0)
     "please transfer me" (by decide)⟩

/-- C4 counterexample: a session with negative sentiment after four turns
escalates although none of the claim's four conditions holds — the utterance
"hello" matches no lexicon keyword, the escalation flag is unset, the turn
count is under its ceiling, and `failedAttempts` is absent. -/
theorem shouldEscalate_sentiment_counterexample :
    (shouldEscalate false negativeSentimentState "hello").1 = true ∧
    detectsHumanRequest "hello" = false ∧
    negativeSentimentState.requestedHuman = false ∧
    negativeSentimentState.conversationTurns ≤ 10 ∧
    negativeSentimentState.failedAttempts = none := by
  decide

/-- C4 amended: `shouldEscalate` returns true exactly when one of SEVEN
conditions holds, in this source order: (1) the utterance matches the
human-request lexicon, (2) the `requestedHuman` flag is set, (3) more than 10
conversation turns, (4) negative sentiment after more than 3 turns, (5)
critical or high urgency, (6) at least 3 failed attempts, (7) the LLM
recommends a transfer. -/
theorem shouldEscalate_iff (llmRec : Bool) (st : IvrState)
    (input : String) :
    (shouldEscalate llmRec st input).1 = true ↔
      (detectsHumanRequest input = true ∨
       st.requestedHuman = true ∨
       10 < st.conversationTurns ∨
       (st.sentiment = some "negative" ∧ 3 < st.conversationTurns) ∨
       st.urgency = some "critical" ∨ st.urgency = some "high" ∨
       (∃ n, st.failedAttempts = some n ∧ 3 ≤ n) ∨
       llmRec = true) := by
  rcases hfa : st.failedAttempts with _ | n <;>
    · simp only [shouldEscalate, hfa]
      split_ifs <;> simp_all
      tauto

/-- C8 counterexample: initializing a call whose `callSid` is already present
raises no error — it silently replaces the stored session with a freshly
initialized one, discarding the existing state (here: a second webhook for
"CA1" with different caller info overwrites the first session). -/
theorem initializeCall_overwrites_counterexample :
    (initializeCall (initializeCall emptyMap "CA1" infoA 0) "CA1" infoB 5) "CA1"
      = some (freshIvrState "CA1" infoB 5) ∧
    freshIvrState "CA1" infoB 5 ≠ freshIvrState "CA1" infoA 0 := by
  decide

/-- C8 amended: `initializeCall` is total and never signals a duplicate:
for every session map, also one already holding `callSid`, it stores a fresh
session under `callSid` (replacing any previous one) and leaves every other
key untouched. -/
theorem initializeCall_replaces (m : SessionMap) (callSid : String)
    (info : CallerInfo) (now : Nat) :
    initializeCall m callSid info now callSid = some (freshIvrState callSid info now) ∧
    ∀ k, k ≠ callSid → initializeCall m callSid info now k = m k := by
  refine ⟨by simp [initializeCall, mapSet], fun k hk => ?_⟩
  simp [initializeCall, mapSet, hk]

/-- Witness for C8 amended: concrete lookup of the stored fresh session and
of an unrelated key. -/
theorem initializeCall_replaces_witness :
    initializeCall emptyMap "CA1" infoA 0 "CA1" = some (freshIvrState "CA1" infoA 0) ∧
    ("CA2" ≠ "CA1" ∧ initializeCall emptyMap "CA1" infoA 0 "CA2" = emptyMap "CA2") :=
  ⟨(initializeCall_replaces emptyMap "CA1" infoA 0).1,
   by decide,
   (initializeCall_replaces emptyMap "CA1" infoA 0).2 "CA2" (by decide)⟩

/-- C1: the dialogue engine performs at most one tool-result resubmission
round per turn.  For `LLMService.generateResponseWithTools` (part_008): the
provider is invoked at most twice for ANY provider behaviour; when the first
response requests tools, it is invoked exactly once more, the dispatched
tools are exactly the first response's `tool_use` blocks (tools requested by
the second response are never dispatched), and a second response carrying no
text block yields the generic apology.  For `getAgentResponse` (part_006):
a second response with `null` content — a renewed tool request despite
`tool_choice: 'none'` — likewise yields that engine's fallback apology. -/
theorem toolRound_bounded (o : AnthOracle) (hist : List AMsg) (msg : String) :
    (generateResponseWithTools o hist msg).providerCalls ≤ 2 ∧
    (∀ r0, o.call1 = .ok r0 → r0.stopReason = "tool_use" →
      (generateResponseWithTools o hist msg).providerCalls = 2 ∧
      (generateResponseWithTools o hist msg).dispatched =
        (toolUsesOf r0.content).map (fun u => (u.name, u.input)) ∧
      (∀ r1, o.call2 = .ok r1 → findTextBlock r1.content = none →
        (generateResponseWithTools o hist msg).outcome = .ok (some llmApology))) ∧
    (∀ (p : ProviderOracle) (st : CallState) (u : String) (m1 m2 : OAMsg),
      p.firstCall = .ok m1 → m1.toolCalls ≠ [] →
      p.secondCall = .ok m2 → m2.content = none →
      (getAgentResponse p st u).reply = apology006) := by
  refine ⟨?_, ?_, ?_⟩
  · unfold generateResponseWithTools
    rcases o.call1 with _ | r0
    · simp
    · by_cases hsr : r0.stopReason = "tool_use" <;> simp [hsr]
      · rcases o.call2 with _ | r1 <;> simp
      · rcases r0.content.head? with _ | b
        · simp
        · cases b <;> simp
  · intro r0 hc1 hsr
    refine ⟨?_, ?_, ?_⟩
    · simp [generateResponseWithTools, hc1, hsr]
      rcases o.call2 with _ | r1 <;> simp
    · simp [generateResponseWithTools, hc1, hsr]
      rcases o.call2 with _ | r1 <;> simp
    · intro r1 hc2 hft
      simp [generateResponseWithTools, hc1, hsr, hc2, hft]
  · intro p st u m1 m2 hp1 htc hp2 hmc
    unfold getAgentResponse
    rw [hp1]
    simp only [List.isEmpty_iff, htc, if_neg, ite_false]
    rcases execTools p.toolExec m1.toolCalls with ms | results
    · simp
    · rw [hp2]
      simp [hmc]

/-- Witness for C1: against the always-tool-requesting stub provider
`protoOracle`, the engine makes exactly two provider calls, dispatches only
the first round's tool, and returns the generic apology; against
`toolAgainProviderOracle`, part_006's engine returns its apology. -/
theorem toolRound_bounded_witness :
    (generateResponseWithTools protoOracle [] "hi").providerCalls = 2 ∧
    (generateResponseWithTools protoOracle [] "hi").dispatched =
      [("search_products", "jbl")] ∧
    (generateResponseWithTools protoOracle [] "hi").outcome = .ok (some llmApology) ∧
    (getAgentResponse toolAgainProviderOracle initialCallState "track my order").reply
      = apology006 := by
  have h := toolRound_bounded protoOracle [] "hi"
  refine ⟨(h.2.1 _ rfl rfl).1, ?_, ?_, ?_⟩
  · have hd := (h.2.1 _ rfl rfl).2.1
    simpa using hd
  · exact (h.2.1 _ rfl rfl).2.2 _ rfl (by decide)
  · exact h.2.2 toolAgainProviderOracle initialCallState "track my order"
      ⟨none, [⟨"t1", "track_order", "28630"⟩]⟩ ⟨none, [⟨"t2", "track_order", "28630"⟩]⟩
      rfl (by decide) rfl rfl

/-- C6 counterexample: eleven consecutive conversation turns whose provider
call fails leave a stored `conversationHistory` of length 11 — above the
10-entry window — because the caller utterance is pushed before the `try`
and the slice-to-last-10 pruning runs only on the success path. -/
theorem history_window_counterexample :
    (iterConvTurn 11 initialCallState).history.length = 11 ∧
    ¬ (iterConvTurn 11 initialCallState).history.length ≤ 10 := by
  decide

/-- C6 amended: after every turn in which the dialogue engine completes
without its catch firing, the stored `conversationHistory` has at most 10
entries, whatever the input history's length — so the history is bounded by
the window independent of the number of successful turns; turns whose
provider interaction fails append the caller utterance (and any tool
messages already pushed) without pruning. -/
theorem history_bounded_on_success (o : ProviderOracle) (st : CallState)
    (msg : String) (h : (getAgentResponse o st msg).errored = false) :
    (getAgentResponse o st msg).state.history.length ≤ 10 := by
  rcases hc1 : o.firstCall with _ | m
  · simp [getAgentResponse, hc1] at h
  · by_cases hemp : m.toolCalls.isEmpty
    · rcases hct : m.content with _ | s
      · simp [getAgentResponse, hc1, hemp, hct] at h
      · simp only [getAgentResponse, hc1, hemp, hct, if_true]
        exact pruneHistory_length_le _
    · rcases hex : execTools o.toolExec m.toolCalls with ms | results
      · simp [getAgentResponse, hc1, hemp, hex] at h
      · rcases hc2 : o.secondCall with _ | m2
        · simp [getAgentResponse, hc1, hemp, hex, hc2] at h
        · rcases hct2 : m2.content with _ | s
          · simp [getAgentResponse, hc1, hemp, hex, hc2, hct2] at h
          · simp only [getAgentResponse, hc1, hemp, hex, hc2, hct2]
            simp only [Bool.false_eq_true, if_false]
            exact pruneHistory_length_le _

/-- Witness for C6 amended: a successful plain-text turn from the initial
state stores a history within the window. -/
theorem history_bounded_on_success_witness :
    (getAgentResponse (textProviderOracle "All good.") initialCallState "hi").errored
      = false ∧
    (getAgentResponse (textProviderOracle "All good.")
        initialCallState "hi").state.history.length ≤ 10 :=
  ⟨by decide,
   history_bounded_on_success (textProviderOracle "All good.") initialCallState "hi"
     (by decide)⟩

/-- C7: when the provider's first call fails, `getAgentResponse` returns the
fixed apology and the stored state keeps the same `agent`, `transcript` and
every other field — the only change is the caller utterance appended to
`history`.  In particular no `failedAttempts` counter is incremented: the
source's call state carries no such field, and `src/src/services/ivr.js`
reads `state.failedAttempts` (line 289) without any code path ever writing
it. -/
theorem provider_failure_state (o : ProviderOracle) (st : CallState) (msg : String)
    (h : o.firstCall = .error ()) :
    getAgentResponse o st msg =
      ⟨{ st with history := st.history ++ [ChatMsg.user msg] }, apology006, true⟩ := by
  simp [getAgentResponse, h]

/-- Witness for C7: the concrete always-failing provider on the initial
state. -/
theorem provider_failure_state_witness :
    errProviderOracle.firstCall = .error () ∧
    getAgentResponse errProviderOracle initialCallState "hi" =
      ⟨{ initialCallState with history := [ChatMsg.user "hi"] }, apology006, true⟩ :=
  ⟨rfl, provider_failure_state errProviderOracle initialCallState "hi" rfl⟩

/-- C2: the active agent only ever changes from the receptionist to a
specialist department.  Whenever a `/voice/conversation` turn changes
`state.agent`, the previous agent was the receptionist and the new one is
one of the four departments — a session never moves directly from one
specialist to another, because the routing branch requires
`state.agent === 'receptionist'`. -/
theorem agent_transition_receptionist_only (o : TurnOracle) (c : String)
    (st : CallState) (sp : String)
    (h : (processTurn o c st sp).state.agent ≠ st.agent) :
    st.agent = Agent.receptionist ∧
    (processTurn o c st sp).state.agent ∈ deptAlternatives := by
  by_cases hsp : sp = ""
  · simp [processTurn, hsp] at h
  · rcases hroute : routingDept (getAgentResponse o.provider
      { st with transcript := st.transcript ++ [⟨"Customer", sp⟩] } sp).reply with _ | d
    · exfalso
      apply h
      simp only [processTurn]
      rw [if_neg hsp, hroute]
      dsimp only
      split
      all_goals simp [getAgentResponse_agent]
    · by_cases hrec : st.agent = Agent.receptionist
      · refine ⟨hrec, ?_⟩
        simp only [processTurn]
        rw [if_neg hsp, hroute]
        dsimp only
        rw [if_pos hrec]
        exact routingDept_mem _ _ hroute
      · exfalso
        apply h
        simp only [processTurn]
        rw [if_neg hsp, hroute]
        dsimp only
        rw [if_neg hrec]
        dsimp only
        split
        all_goals simp [getAgentResponse_agent]

/-- Witness for C2: a receptionist turn whose reply carries the sales
hand-off marker changes the agent, from the receptionist, to the sales
department. -/
theorem agent_transition_receptionist_only_witness :
    (processTurn routeTurnOracle "CA1" initialCallState "i need sales").state.agent ≠
      initialCallState.agent ∧
    (initialCallState.agent = Agent.receptionist ∧
     (processTurn routeTurnOracle "CA1"
        initialCallState "i need sales").state.agent ∈ deptAlternatives) :=
  ⟨by decide,
   agent_transition_receptionist_only routeTurnOracle "CA1" initialCallState
     "i need sales" (by decide)⟩

/-- C5: the transcript is append-only across every `/voice/conversation`
turn (the old transcript is a prefix of the new one), and a department
hand-off resets `conversationHistory` to the empty sequence while the
transcript holds exactly the entries appended during the turn — the switch
itself leaves it untouched. -/
theorem handoff_frame (o : TurnOracle) (c : String) (st : CallState) (sp : String) :
    (∃ tail, (processTurn o c st sp).state.transcript = st.transcript ++ tail) ∧
    (∀ d : Agent, sp ≠ "" → st.agent = Agent.receptionist →
      routingDept (getAgentResponse o.provider
        { st with transcript := st.transcript ++ [⟨"Customer", sp⟩] } sp).reply = some d →
      (processTurn o c st sp).state.history = [] ∧
      (processTurn o c st sp).state.transcript =
        st.transcript ++ [⟨"Customer", sp⟩,
          ⟨"AI-" ++ st.agent.name,
            (getAgentResponse o.provider
              { st with transcript := st.transcript ++ [⟨"Customer", sp⟩] } sp).reply⟩]) := by
  constructor
  · by_cases hsp : sp = ""
    · exact ⟨[], by simp [processTurn, hsp]⟩
    · refine ⟨[⟨"Customer", sp⟩,
        ⟨"AI-" ++ st.agent.name,
          (getAgentResponse o.provider
            { st with transcript := st.transcript ++ [⟨"Customer", sp⟩] } sp).reply⟩], ?_⟩
      simp only [processTurn]
      rw [if_neg hsp]
      split
      · simp [getAgentResponse_transcript]
      · split
        all_goals simp [getAgentResponse_transcript]
  · intro d hsp hrec hroute
    constructor
    · simp only [processTurn]
      rw [if_neg hsp, hroute]
      dsimp only
      rw [if_pos hrec]
    · simp only [processTurn]
      rw [if_neg hsp, hroute]
      dsimp only
      rw [if_pos hrec]
      simp [getAgentResponse_transcript]

/-- Witness for C5: the concrete sales hand-off turn clears the history and
leaves exactly the two appended transcript entries. -/
theorem handoff_frame_witness :
    (∃ tail, (processTurn routeTurnOracle "CA1" initialCallState "i want sales").state.transcript
      = initialCallState.transcript ++ tail) ∧
    (processTurn routeTurnOracle "CA1" initialCallState "i want sales").state.history = [] ∧
    (processTurn routeTurnOracle "CA1" initialCallState "i want sales").state.transcript =
      initialCallState.transcript ++ [⟨"Customer", "i want sales"⟩,
        ⟨"AI-" ++ initialCallState.agent.name,
          (getAgentResponse routeTurnOracle.provider
            { initialCallState with
                transcript := initialCallState.transcript ++ [⟨"Customer", "i want sales"⟩] }
            "i want sales").reply⟩] :=
  ⟨(handoff_frame routeTurnOracle "CA1" initialCallState "i want sales").1,
   ((handoff_frame routeTurnOracle "CA1" initialCallState "i want sales").2
      Agent.sales (by decide) rfl (by decide)).1,
   ((handoff_frame routeTurnOracle "CA1" initialCallState "i want sales").2
      Agent.sales (by decide) rfl (by decide)).2⟩

/-- C9 counterexample: not every synthesis failure degrades to a
baseline-voice spoken result.  On the hand-off branch a failed synthesis of
both the reply and the specialist greeting leaves a TwiML with no `<Play>`
and no baseline `<Say>` fallback (the `<Gather>`'s nested `<Say>` is empty)
— the caller hears silence; on the goodbye branch a failed synthesis yields
a bare `<Hangup/>` with nothing spoken.  Both turns still resolve without an
exception, but not to a baseline-fallback-voice result. -/
theorem synthesis_no_baseline_counterexample :
    (processTurn routeTurnOracle "CA1" initialCallState "i want sales").response =
      VoiceResponse.handoff none "Hello, this is sales. How can I help you today?"
        none Agent.sales ∧
    (processTurn errTurnOracle "CA1" initialCallState "goodbye").response =
      VoiceResponse.hangupAfter none := by
  decide

/-- C9 amended: on the `createTwiML`-built paths (the greeting, the
re-prompt, and every normal conversation reply) the spoken part is either
the generated audio or the baseline-voice `<Say>` of the message — and when
the synthesis provider fails, it is exactly the baseline-voice fallback; the
failure is absorbed (`generateSpeech` returns `null`), never raised across
the telephony boundary.  On the hand-off and goodbye branches the failure is
likewise absorbed, but the `<Play>` is simply omitted with no baseline
fallback: a silent gather or a bare hangup. -/
theorem synthesis_fallback (msg f nextUrl : String) (out : Except Unit AudioBytes) :
    ((createTwiML msg (generateSpeech out f) nextUrl).spoken = SpokenOut.playFile f ∨
     (createTwiML msg (generateSpeech out f) nextUrl).spoken =
       SpokenOut.sayVoice "Polly.Ayanda" msg) ∧
    (out = .error () →
      (createTwiML msg (generateSpeech out f) nextUrl).spoken =
        SpokenOut.sayVoice "Polly.Ayanda" msg) := by
  rcases out with u | a
  · exact ⟨Or.inr rfl, fun _ => rfl⟩
  · exact ⟨Or.inl rfl, fun h => nomatch h⟩

/-- Witness for C9: a failed synthesis of the greeting falls back to the
baseline voice saying the message. -/
theorem synthesis_fallback_witness :
    ((Except.error () : Except Unit AudioBytes) = .error ()) ∧
    (createTwiML "Welcome to Audico." (generateSpeech (.error ()) "greeting.mp3")
      "/voice/conversation").spoken = SpokenOut.sayVoice "Polly.Ayanda" "Welcome to Audico." :=
  ⟨rfl,
   (synthesis_fallback "Welcome to Audico." "greeting.mp3" "/voice/conversation"
     (.error ())).2 rfl⟩

/-- C10 counterexample: the utterance "thanks, sales please" matches the
goodbye pattern, yet when the receptionist's reply carries the sales
hand-off marker the turn performs the department switch — the session is NOT
deleted and no hangup is returned, contradicting "regardless of the content
of the agent's reply". -/
theorem goodbye_shadowed_counterexample :
    goodbyeMatch "thanks, sales please" = true ∧
    (processTurn routeTurnOracle "CA1" initialCallState "thanks, sales please").deleted
      = false ∧
    (processTurn routeTurnOracle "CA1" initialCallState "thanks, sales please").response =
      VoiceResponse.handoff none "Hello, this is sales. How can I help you today?"
        none Agent.sales := by
  decide

/-- C10 amended: if the utterance matches the goodbye pattern AND the
routing branch does not fire (the reply carries no hand-off marker, or the
agent is not the receptionist), the handler returns a hangup instruction and
deletes the session, whatever the current department. -/
theorem goodbye_hangs_up (o : TurnOracle) (c : String) (st : CallState) (sp : String)
    (hg : goodbyeMatch sp = true)
    (hr : routingDept (getAgentResponse o.provider
        { st with transcript := st.transcript ++ [⟨"Customer", sp⟩] } sp).reply = none
      ∨ st.agent ≠ Agent.receptionist) :
    (processTurn o c st sp).deleted = true ∧
    ∃ a, (processTurn o c st sp).response = VoiceResponse.hangupAfter a := by
  have hsp : sp ≠ "" := by
    intro hsp
    rw [hsp] at hg
    exact absurd hg (by decide)
  rcases hr with hr | hr
  · constructor
    · simp only [processTurn]
      rw [if_neg hsp, hr]
      dsimp only
      rw [if_pos hg]
    · simp only [processTurn]
      rw [if_neg hsp, hr]
      dsimp only
      rw [if_pos hg]
      exact ⟨_, rfl⟩
  · rcases hroute : routingDept (getAgentResponse o.provider
      { st with transcript := st.transcript ++ [⟨"Customer", sp⟩] } sp).reply with _ | d
    · constructor
      · simp only [processTurn]
        rw [if_neg hsp, hroute]
        dsimp only
        rw [if_pos hg]
      · simp only [processTurn]
        rw [if_neg hsp, hroute]
        dsimp only
        rw [if_pos hg]
        exact ⟨_, rfl⟩
    · constructor
      · simp only [processTurn]
        rw [if_neg hsp, hroute]
        dsimp only
        rw [if_neg hr]
        dsimp only
        rw [if_pos hg]
      · simp only [processTurn]
        rw [if_neg hsp, hroute]
        dsimp only
        rw [if_neg hr]
        dsimp only
        rw [if_pos hg]
        exact ⟨_, rfl⟩

/-- Witness for C10 amended: a "goodbye" turn whose reply carries no
hand-off marker hangs up and deletes the session. -/
theorem goodbye_hangs_up_witness :
    goodbyeMatch "goodbye" = true ∧
    ((processTurn errTurnOracle "CA1" initialCallState "goodbye").deleted = true ∧
     ∃ a, (processTurn errTurnOracle "CA1" initialCallState "goodbye").response =
       VoiceResponse.hangupAfter a) :=
  ⟨by decide,
   goodbye_hangs_up errTurnOracle "CA1" initialCallState "goodbye" (by decide)
     (Or.inl (by decide))⟩

end Audico
